import Mathlib

/-!
Shallow embedding of `cartography/graph/statement.py`.

The module defines `GraphStatement` (query text, parameter mapping,
iteration flag, iteration size), single-shot execution against a store
session, and an iterative batched-execution protocol driven by a
tenacity retry decorator (retry while `TotalCompleted != 0`, fixed
25 ms wait, stop after 1200 s of wall-clock time).

Parameter mappings are embedded as association lists over a small value
type `Val` mirroring Python values that appear in parameters.  Dict
operations mirror Python semantics: lookup, item assignment
(replace-in-place or append) and `dict.update`.  Time is modelled in
whole milliseconds; a session is an oracle giving, for each successive
store call, the call's duration and its result.
-/

/-- Values stored in a statement's parameter mapping (Python values). -/
inductive Val where
  | vint (n : Int)
  | vstr (s : String)
  | vbool (b : Bool)
  | vnull
deriving DecidableEq

/-- A result row: mapping from field name to value. -/
abbrev Row := List (String × Val)

/-- Python `d[k]` lookup (first matching key; keys are unique in real dicts). -/
def dictLookup : List (String × Val) → String → Option Val
  | [], _ => none
  | (k', v) :: rest, k => if k' = k then some v else dictLookup rest k

/-- Python `d[k] = v`: replace the value of an existing key in place,
otherwise append the new binding. -/
def dictSet : List (String × Val) → String → Val → List (String × Val)
  | [], k, v => [(k, v)]
  | (k', v') :: rest, k, v =>
      if k' = k then (k, v) :: rest else (k', v') :: dictSet rest k v

/-- Python `d.update(e)`: assign every binding of `e` into `d`, in order. -/
def dictUpdate (d e : List (String × Val)) : List (String × Val) :=
  e.foldl (fun acc p => dictSet acc p.1 p.2) d

/-- The binding a `dict.update` with argument `e` imposes on key `k`
(the value of the last pair of `e` with that key), if any. -/
def updLookup : List (String × Val) → String → Option Val
  | [], _ => none
  | (k', v) :: rest, k =>
      match updLookup rest k with
      | some w => some w
      | none => if k' = k then some v else none

/-- `CLEANUP_MAX_RETRY_TIME = 1200` seconds, in milliseconds. -/
def CLEANUP_MAX_RETRY_TIME_MS : Nat := 1200 * 1000

/-- `REPEAT_DELAY = .025` seconds, in milliseconds. -/
def REPEAT_DELAY_MS : Nat := 25

/-- `GraphStatement`: a query, its parameter mapping, and the iteration
policy (`iterative` flag and `iterationsize` batch size). -/
structure GraphStatement where
  query : String
  parameters : List (String × Val)
  iterative : Bool
  iterationsize : Int
deriving DecidableEq

/-- `GraphStatement.__init__(query, parameters=None, iterative=False,
iterationsize=0)`: a falsy `parameters` argument (None or the empty
dict) is replaced by a fresh empty dict, then
`parameters["LIMIT_SIZE"] = iterationsize` is assigned. -/
def GraphStatement.init (query : String) (parameters : Option (List (String × Val)))
    (iterative : Bool) (iterationsize : Int) : GraphStatement :=
  let ps : List (String × Val) :=
    match parameters with
    | none => []
    | some l => if l.isEmpty then [] else l
  { query := query
    parameters := dictSet ps "LIMIT_SIZE" (Val.vint iterationsize)
    iterative := iterative
    iterationsize := iterationsize }

/-- `merge_parameters`: copy the current parameters, `update` with the
given mapping, and replace the statement's parameter set. -/
def GraphStatement.merge_parameters (s : GraphStatement)
    (parameters : List (String × Val)) : GraphStatement :=
  { s with parameters := dictUpdate s.parameters parameters }

/-- A structured document for serialization (`as_dict` output or
`create_from_json` input); `none` marks an absent field. -/
structure JsonDoc where
  query : Option String
  parameters : Option (List (String × Val))
  iterative : Option Bool
  iterationsize : Option Int
deriving DecidableEq

/-- `as_dict`: convert the statement to a document with all four fields. -/
def GraphStatement.as_dict (s : GraphStatement) : JsonDoc :=
  { query := some s.query
    parameters := some s.parameters
    iterative := some s.iterative
    iterationsize := some s.iterationsize }

/-- `create_from_json`: hydrate a statement from a document via
`json_obj.get` with defaults `""`, `{}`, `False`, `0`. -/
def GraphStatement.create_from_json (j : JsonDoc) : GraphStatement :=
  GraphStatement.init (j.query.getD "") (some (j.parameters.getD []))
    (j.iterative.getD false) (j.iterationsize.getD 0)

/-- Faults observable from `run`: a store-raised execution error, a
malformed iterative result (`single()`/field access raised), or
tenacity's `RetryError` after the retry budget elapsed (carrying the
last observed `TotalCompleted`). -/
inductive Fault where
  | executionFault
  | protocolFault
  | retryBudgetExceeded (last : Val)
deriving DecidableEq

/-- What one store call produced: a result handle (its rows) or a
store-raised execution fault. -/
inductive CallResult where
  | rows (h : List Row)
  | execFault
deriving DecidableEq

/-- One store call as seen by the engine: how long it took and what it
returned. -/
structure SessResp where
  durationMs : Nat
  result : CallResult
deriving DecidableEq

/-- A session: an oracle giving the response to the i-th store call. -/
def Session := Nat → SessResp

/-- `result.single()`: the unique row, or a fault when the result does
not have exactly one row. -/
def single : List Row → Except Fault Row
  | [r] => Except.ok r
  | _ => Except.error Fault.protocolFault

/-- `row[field]`: field access on a row, raising (KeyError) when absent. -/
def getField (r : Row) (k : String) : Except Fault Val :=
  match dictLookup r k with
  | some v => Except.ok v
  | none => Except.error Fault.protocolFault

/-- `self._run(session).single()['TotalCompleted']` evaluated on one
call's result: the reported value, or the fault raised on the way. -/
def attemptTC (c : CallResult) : Except Fault Val :=
  match c with
  | CallResult.execFault => Except.error Fault.executionFault
  | CallResult.rows h => (single h).bind (fun r => getField r "TotalCompleted")

/-- Python `total_completed != 0` (note `False == 0` and `True == 1`). -/
def pyNeZero : Val → Bool
  | Val.vint n => decide (n ≠ 0)
  | Val.vbool b => b
  | Val.vstr _ => true
  | Val.vnull => true

/-- Outcome of one invocation of the retry-wrapped `_run_iter_core`:
either the wrapped call returned a value whose retry predicate is false
(`done`), or an exception escaped (`exc`). -/
inductive IterOutcome where
  | done (v : Val)
  | exc (f : Fault)
deriving DecidableEq

/-- Result of running the tenacity retry loop: the outcome, the number
of store calls made, and the wall-clock elapsed milliseconds since the
loop started when it ended (attempt durations plus the fixed sleeps
between attempts). -/
structure IterRes where
  outcome : IterOutcome
  calls : Nat
  elapsed : Nat
deriving DecidableEq

/-- `_run_iter_core` under its tenacity decorator
(`retry_if_result(lambda x: x != 0)`, `wait_fixed(REPEAT_DELAY)`,
`stop_after_delay(CLEANUP_MAX_RETRY_TIME)`): perform an attempt; an
exception propagates immediately (the retry predicate only inspects
results); a result with `TotalCompleted == 0` is returned; otherwise,
if the time since the first attempt has reached the budget, a
`RetryError` carrying the last result is raised, else the loop sleeps
the fixed delay and retries. -/
def iterCore (sess : Session) (idx : Nat) (elapsed : Nat) : IterRes :=
  match attemptTC (sess idx).result with
  | Except.error f =>
      { outcome := IterOutcome.exc f, calls := 1
        elapsed := elapsed + (sess idx).durationMs }
  | Except.ok v =>
      if pyNeZero v then
        if CLEANUP_MAX_RETRY_TIME_MS ≤ elapsed + (sess idx).durationMs then
          { outcome := IterOutcome.exc (Fault.retryBudgetExceeded v), calls := 1
            elapsed := elapsed + (sess idx).durationMs }
        else
          let r := iterCore sess (idx + 1)
            (elapsed + (sess idx).durationMs + REPEAT_DELAY_MS)
          { outcome := r.outcome, calls := r.calls + 1, elapsed := r.elapsed }
      else
        { outcome := IterOutcome.done v, calls := 1
          elapsed := elapsed + (sess idx).durationMs }
termination_by CLEANUP_MAX_RETRY_TIME_MS - elapsed
decreasing_by
  unfold CLEANUP_MAX_RETRY_TIME_MS REPEAT_DELAY_MS at *
  omega

/-- `_run`: non-iterative execution; returns the raw result handle or
propagates the store's execution fault.  The oracle index says which
store call this is. -/
def GraphStatement.runSingle (_s : GraphStatement) (sess : Session)
    (idx : Nat) : Except Fault (List Row) :=
  match (sess idx).result with
  | CallResult.execFault => Except.error Fault.executionFault
  | CallResult.rows h => Except.ok h

/-- What `run` did: a normal return (Python `None`, so the payload of a
successful `run` is `none` — the raw handle is never returned) or an
escaped exception, together with the number of store calls made. -/
inductive RunResult where
  | ret (payload : Option (List Row)) (calls : Nat)
  | exc (f : Fault) (calls : Nat)
deriving DecidableEq

/-- `run(session)`: dispatch on `iterative`.  The iterative path
(`_run_iterative`) first re-assigns `parameters["LIMIT_SIZE"] =
iterationsize`, then runs the retry loop; the non-iterative path calls
`_run` once and discards its result.  Returns the statement as left
after the call, paired with the observable result. -/
def GraphStatement.run (s : GraphStatement) (sess : Session) :
    GraphStatement × RunResult :=
  if s.iterative then
    let s' := { s with
      parameters := dictSet s.parameters "LIMIT_SIZE" (Val.vint s.iterationsize) }
    let r := iterCore sess 0 0
    match r.outcome with
    | IterOutcome.done _ => (s', RunResult.ret none r.calls)
    | IterOutcome.exc f => (s', RunResult.exc f r.calls)
  else
    match s.runSingle sess 0 with
    | Except.ok _ => (s, RunResult.ret none 1)
    | Except.error f => (s, RunResult.exc f 1)

/-- Sum of the durations of calls `idx, idx+1, …, idx+c-1`. -/
def sumDur (sess : Session) (idx : Nat) : Nat → Nat
  | 0 => 0
  | c + 1 => (sess idx).durationMs + sumDur sess (idx + 1) c

lemma dictLookup_dictSet (d : List (String × Val)) (k : String) (v : Val)
    (k' : String) :
    dictLookup (dictSet d k v) k' = if k = k' then some v else dictLookup d k' := by
  induction d with
  | nil => by_cases h : k = k' <;> simp [dictSet, dictLookup, h]
  | cons p rest ih =>
    obtain ⟨k0, v0⟩ := p
    by_cases h0 : k0 = k
    · subst h0
      by_cases h1 : k0 = k'
      · subst h1; simp [dictSet, dictLookup]
      · simp [dictSet, dictLookup, h1]
    · by_cases h1 : k0 = k'
      · subst h1
        have hk : k ≠ k0 := fun h => h0 h.symm
        simp [dictSet, dictLookup, h0, hk]
      · simp [dictSet, dictLookup, h0, h1, ih]

lemma dictSet_of_lookup_eq (d : List (String × Val)) (k : String) (v : Val)
    (h : dictLookup d k = some v) : dictSet d k v = d := by
  induction d with
  | nil => simp [dictLookup] at h
  | cons p rest ih =>
    obtain ⟨k0, v0⟩ := p
    by_cases h0 : k0 = k
    · subst h0
      simp [dictLookup] at h
      simp [dictSet, h]
    · simp [dictLookup, h0] at h
      simp [dictSet, h0, ih h]

lemma dictLookup_dictUpdate (d e : List (String × Val)) (k : String) :
    dictLookup (dictUpdate d e) k =
      match updLookup e k with
      | some w => some w
      | none => dictLookup d k := by
  induction e generalizing d with
  | nil => simp [dictUpdate, updLookup, List.foldl]
  | cons p rest ih =>
    obtain ⟨k0, v0⟩ := p
    have hstep : dictUpdate d ((k0, v0) :: rest) = dictUpdate (dictSet d k0 v0) rest := by
      simp [dictUpdate, List.foldl]
    rw [hstep, ih]
    rcases hrest : updLookup rest k with _ | w
    · simp [updLookup, hrest, dictLookup_dictSet]
      by_cases h0 : k0 = k <;> simp [h0]
    · simp [updLookup, hrest]

lemma iterCore_of_fault (sess : Session) (idx elapsed : Nat) (f : Fault)
    (h : attemptTC (sess idx).result = Except.error f) :
    iterCore sess idx elapsed =
      { outcome := IterOutcome.exc f, calls := 1
        elapsed := elapsed + (sess idx).durationMs } := by
  unfold iterCore
  rw [h]

lemma iterCore_of_zero (sess : Session) (idx elapsed : Nat) (v : Val)
    (h : attemptTC (sess idx).result = Except.ok v) (hz : pyNeZero v = false) :
    iterCore sess idx elapsed =
      { outcome := IterOutcome.done v, calls := 1
        elapsed := elapsed + (sess idx).durationMs } := by
  unfold iterCore
  rw [h]
  simp [hz]

lemma iterCore_of_budget (sess : Session) (idx elapsed : Nat) (v : Val)
    (h : attemptTC (sess idx).result = Except.ok v) (hnz : pyNeZero v = true)
    (hb : CLEANUP_MAX_RETRY_TIME_MS ≤ elapsed + (sess idx).durationMs) :
    iterCore sess idx elapsed =
      { outcome := IterOutcome.exc (Fault.retryBudgetExceeded v), calls := 1
        elapsed := elapsed + (sess idx).durationMs } := by
  unfold iterCore
  rw [h]
  simp [hnz, hb]

lemma iterCore_of_retry (sess : Session) (idx elapsed : Nat) (v : Val)
    (h : attemptTC (sess idx).result = Except.ok v) (hnz : pyNeZero v = true)
    (hb : elapsed + (sess idx).durationMs < CLEANUP_MAX_RETRY_TIME_MS) :
    iterCore sess idx elapsed =
      { outcome := (iterCore sess (idx + 1)
          (elapsed + (sess idx).durationMs + REPEAT_DELAY_MS)).outcome
        calls := (iterCore sess (idx + 1)
          (elapsed + (sess idx).durationMs + REPEAT_DELAY_MS)).calls + 1
        elapsed := (iterCore sess (idx + 1)
          (elapsed + (sess idx).durationMs + REPEAT_DELAY_MS)).elapsed } := by
  conv_lhs => unfold iterCore
  rw [h]
  simp [hnz]
  omega

lemma iterCore_done_outcome_zero (sess : Session) :
    ∀ (m elapsed idx : Nat) (v : Val),
      CLEANUP_MAX_RETRY_TIME_MS - elapsed ≤ m →
      (iterCore sess idx elapsed).outcome = IterOutcome.done v →
      pyNeZero v = false := by
  intro m
  induction m with
  | zero =>
    intro elapsed idx v hm hout
    cases hA : attemptTC (sess idx).result with
    | error f =>
      rw [iterCore_of_fault sess idx elapsed f hA] at hout
      simp at hout
    | ok v0 =>
      cases hz : pyNeZero v0 with
      | true =>
        have hb : CLEANUP_MAX_RETRY_TIME_MS ≤ elapsed + (sess idx).durationMs := by
          omega
        rw [iterCore_of_budget sess idx elapsed v0 hA hz hb] at hout
        simp at hout
      | false =>
        rw [iterCore_of_zero sess idx elapsed v0 hA hz] at hout
        simp at hout
        subst hout
        exact hz
  | succ m ih =>
    intro elapsed idx v hm hout
    cases hA : attemptTC (sess idx).result with
    | error f =>
      rw [iterCore_of_fault sess idx elapsed f hA] at hout
      simp at hout
    | ok v0 =>
      cases hz : pyNeZero v0 with
      | true =>
        by_cases hb : CLEANUP_MAX_RETRY_TIME_MS ≤ elapsed + (sess idx).durationMs
        · rw [iterCore_of_budget sess idx elapsed v0 hA hz hb] at hout
          simp at hout
        · have hb' : elapsed + (sess idx).durationMs < CLEANUP_MAX_RETRY_TIME_MS := by
            omega
          rw [iterCore_of_retry sess idx elapsed v0 hA hz hb'] at hout
          have hm' : CLEANUP_MAX_RETRY_TIME_MS -
              (elapsed + (sess idx).durationMs + REPEAT_DELAY_MS) ≤ m := by
            have hR : REPEAT_DELAY_MS = 25 := rfl
            omega
          exact ih (elapsed + (sess idx).durationMs + REPEAT_DELAY_MS) (idx + 1) v hm' hout
      | false =>
        rw [iterCore_of_zero sess idx elapsed v0 hA hz] at hout
        simp at hout
        subst hout
        exact hz

lemma iterCore_all_nonzero (sess : Session)
    (hnz : ∀ i, ∃ v, attemptTC (sess i).result = Except.ok v ∧ pyNeZero v = true) :
    ∀ (m elapsed idx : Nat),
      CLEANUP_MAX_RETRY_TIME_MS - elapsed ≤ m →
      ∃ (c : Nat) (vlast : Val), 1 ≤ c ∧
        attemptTC (sess (idx + c - 1)).result = Except.ok vlast ∧
        iterCore sess idx elapsed =
          { outcome := IterOutcome.exc (Fault.retryBudgetExceeded vlast)
            calls := c
            elapsed := elapsed + sumDur sess idx c + REPEAT_DELAY_MS * (c - 1) } ∧
        CLEANUP_MAX_RETRY_TIME_MS ≤
          elapsed + sumDur sess idx c + REPEAT_DELAY_MS * (c - 1) ∧
        (∀ j, j + 1 < c →
          elapsed + sumDur sess idx (j + 1) + REPEAT_DELAY_MS * j <
            CLEANUP_MAX_RETRY_TIME_MS) := by
  intro m
  induction m with
  | zero =>
    intro elapsed idx hm
    obtain ⟨v, hA, hv⟩ := hnz idx
    have hb : CLEANUP_MAX_RETRY_TIME_MS ≤ elapsed + (sess idx).durationMs := by
      omega
    refine ⟨1, v, le_refl 1, by simpa using hA, ?_, ?_, ?_⟩
    · rw [iterCore_of_budget sess idx elapsed v hA hv hb]
      simp [sumDur]
    · simp [sumDur]
      omega
    · intro j hj
      omega
  | succ m ih =>
    intro elapsed idx hm
    obtain ⟨v, hA, hv⟩ := hnz idx
    by_cases hb : CLEANUP_MAX_RETRY_TIME_MS ≤ elapsed + (sess idx).durationMs
    · refine ⟨1, v, le_refl 1, by simpa using hA, ?_, ?_, ?_⟩
      · rw [iterCore_of_budget sess idx elapsed v hA hv hb]
        simp [sumDur]
      · simp [sumDur]
        omega
      · intro j hj
        omega
    · have hb' : elapsed + (sess idx).durationMs < CLEANUP_MAX_RETRY_TIME_MS := by
        omega
      have hm' : CLEANUP_MAX_RETRY_TIME_MS -
          (elapsed + (sess idx).durationMs + REPEAT_DELAY_MS) ≤ m := by
        have hR : REPEAT_DELAY_MS = 25 := rfl
        omega
      obtain ⟨c', vlast, hc1, hAlast, heq, hbud, hj⟩ :=
        ih (elapsed + (sess idx).durationMs + REPEAT_DELAY_MS) (idx + 1) hm'
      have hR : REPEAT_DELAY_MS = 25 := rfl
      have hidx : idx + 1 + c' - 1 = idx + (c' + 1) - 1 := by omega
      refine ⟨c' + 1, vlast, by omega, by rw [← hidx]; exact hAlast, ?_, ?_, ?_⟩
      · rw [iterCore_of_retry sess idx elapsed v hA hv hb', heq]
        simp only [IterRes.mk.injEq, sumDur]
        refine ⟨trivial, trivial, ?_⟩
        simp only [hR]
        omega
      · simp only [sumDur]
        simp only [hR] at hbud ⊢
        omega
      · intro j hjlt
        cases j with
        | zero =>
          simp only [sumDur]
          simp only [hR]
          omega
        | succ j' =>
          have h' := hj j' (by omega)
          simp only [sumDur] at h' ⊢
          simp only [hR] at h' ⊢
          omega

/-- A Python object handed to the JSON encoder: a `GraphStatement`, or
some other object for which no handler exists. -/
inductive PyObj where
  | stmt (s : GraphStatement)
  | other (tag : Nat)
deriving DecidableEq

/-- The error raised by JSON encoding (`TypeError`). -/
inductive EncFault where
  | typeError
deriving DecidableEq

/-- `json.JSONEncoder.default`: unconditionally raises `TypeError` for
any object it is handed. -/
def JSONEncoder_default (_o : PyObj) : Except EncFault JsonDoc :=
  Except.error EncFault.typeError

/-- `GraphStatementJSONEncoder.default`: a `GraphStatement` is encoded
as its `as_dict` document; any other object is passed to the base
encoder's `default`, letting its exception roll up. -/
def GraphStatementJSONEncoder_default (o : PyObj) : Except EncFault JsonDoc :=
  match o with
  | PyObj.stmt s => Except.ok s.as_dict
  | PyObj.other t => JSONEncoder_default (PyObj.other t)

/-- Statements reachable by construction followed by any sequence of
`merge_parameters` calls. -/
inductive Reachable : GraphStatement → Prop where
  | init (q : String) (p : Option (List (String × Val))) (i : Bool) (n : Int) :
      Reachable (GraphStatement.init q p i n)
  | merge (s : GraphStatement) (e : List (String × Val)) :
      Reachable s → Reachable (s.merge_parameters e)

/-- Statements reachable by construction followed by merges none of
which binds the reserved key `LIMIT_SIZE`. -/
inductive ReachableKeepLimit : GraphStatement → Prop where
  | init (q : String) (p : Option (List (String × Val))) (i : Bool) (n : Int) :
      ReachableKeepLimit (GraphStatement.init q p i n)
  | merge (s : GraphStatement) (e : List (String × Val))
      (he : updLookup e "LIMIT_SIZE" = none) :
      ReachableKeepLimit s → ReachableKeepLimit (s.merge_parameters e)

/-- A fake session whose every call instantly returns one row with no
`TotalCompleted` field. -/
def noTCSession : Session :=
  fun _ => { durationMs := 0, result := CallResult.rows [[("x", Val.vint 1)]] }

/-- A fake session reporting the `TotalCompleted` sequence 5, 3, 0. -/
def seq532Session : Session :=
  fun i =>
    { durationMs := 0
      result := CallResult.rows
        [[("TotalCompleted", Val.vint (if i = 0 then 5 else if i = 1 then 3 else 0))]] }

/-- A fake session whose every call instantly reports
`TotalCompleted = 1`. -/
def onesSession : Session :=
  fun _ => { durationMs := 0, result := CallResult.rows [[("TotalCompleted", Val.vint 1)]] }

/-- Per-key effect of `GraphStatement.init` on the parameter mapping. -/
lemma init_lookup (q : String) (p : Option (List (String × Val))) (i : Bool)
    (n : Int) (k : String) :
    dictLookup (GraphStatement.init q p i n).parameters k =
      if k = "LIMIT_SIZE" then some (Val.vint n) else dictLookup (p.getD []) k := by
  unfold GraphStatement.init
  simp only []
  rw [dictLookup_dictSet]
  by_cases h : k = "LIMIT_SIZE"
  · subst h
    simp
  · have h' : "LIMIT_SIZE" ≠ k := fun hh => h hh.symm
    simp only [if_neg h', if_neg h]
    cases p with
    | none => rfl
    | some l =>
      cases l with
      | nil => rfl
      | cons a rest => rfl

/-- C6: immediately after `Construct(q, p, i, n)` the parameters equal
`p` extended/overwritten with `LIMIT_SIZE ↦ n` — in particular
`parameters["LIMIT_SIZE"] = n` even when `p` already bound that key —
and an absent/null `p` defaults to the empty mapping before injection. -/
theorem c6_construct_injects_limit (q : String) (p : Option (List (String × Val)))
    (i : Bool) (n : Int) (k : String) :
    dictLookup (GraphStatement.init q p i n).parameters k =
      if k = "LIMIT_SIZE" then some (Val.vint n) else dictLookup (p.getD []) k :=
  init_lookup q p i n k

/-- C7: `merge_parameters extra` overlays `extra` onto the current
parameters — a key bound by `extra` takes the value `extra` assigns it,
any other key keeps its prior value (so no `LIMIT_SIZE` re-injection
happens at merge time) — and no other field of the statement changes. -/
theorem c7_merge_is_overlay (s : GraphStatement) (extra : List (String × Val)) :
    (∀ k, dictLookup (s.merge_parameters extra).parameters k =
      match updLookup extra k with
      | some v => some v
      | none => dictLookup s.parameters k) ∧
    (s.merge_parameters extra).query = s.query ∧
    (s.merge_parameters extra).iterative = s.iterative ∧
    (s.merge_parameters extra).iterationsize = s.iterationsize :=
  ⟨fun k => dictLookup_dictUpdate s.parameters extra k, rfl, rfl, rfl⟩

/-- C9: `run` never changes `query`, `iterative` or `iterationsize`;
the statement it leaves behind differs at most in `parameters`, where
the iterative path re-assigns `LIMIT_SIZE ↦ iterationsize` on entry and
the non-iterative path changes nothing. -/
theorem c9_run_frame (s : GraphStatement) (sess : Session) :
    (s.run sess).1 =
      { query := s.query
        parameters :=
          if s.iterative then
            dictSet s.parameters "LIMIT_SIZE" (Val.vint s.iterationsize)
          else s.parameters
        iterative := s.iterative
        iterationsize := s.iterationsize } := by
  unfold GraphStatement.run
  cases hh : s.iterative with
  | true =>
    simp only [hh, if_true]
    cases ho : (iterCore sess 0 0).outcome with
    | done v => simp [ho]
    | exc f => simp [ho]
  | false =>
    simp only [hh, Bool.false_eq_true, if_false]
    cases hr : s.runSingle sess 0 with
    | ok a => rw [← hh]
    | error f => rw [← hh]

/-- C10: the JSON encoder maps a `GraphStatement` to exactly its
`as_dict` document, and any other object is handed to the base
encoder's `default`, whose `TypeError` rolls up instead of the object
being silently serialized. -/
theorem c10_encoder :
    (∀ s, GraphStatementJSONEncoder_default (PyObj.stmt s) = Except.ok s.as_dict) ∧
    (∀ t, GraphStatementJSONEncoder_default (PyObj.other t) =
        JSONEncoder_default (PyObj.other t) ∧
      GraphStatementJSONEncoder_default (PyObj.other t) =
        Except.error EncFault.typeError) :=
  ⟨fun _ => rfl, fun _ => ⟨rfl, rfl⟩⟩

/-- C5 counterexample: a reachable statement — construct with batch
size 0, then merge `{LIMIT_SIZE: 5}` — whose `LIMIT_SIZE` parameter no
longer equals its `iterationsize`, refuting the claim that the value
always equals the current batch size after any sequence of merges. -/
theorem c5_counterexample :
    Reachable ((GraphStatement.init "q" none false 0).merge_parameters
      [("LIMIT_SIZE", Val.vint 5)]) ∧
    dictLookup ((GraphStatement.init "q" none false 0).merge_parameters
        [("LIMIT_SIZE", Val.vint 5)]).parameters "LIMIT_SIZE" ≠
      some (Val.vint ((GraphStatement.init "q" none false 0).merge_parameters
        [("LIMIT_SIZE", Val.vint 5)]).iterationsize) :=
  ⟨Reachable.merge _ _ (Reachable.init "q" none false 0), by decide⟩

/-- C5 (amended): every statement reachable by construction and merges
has the reserved key `LIMIT_SIZE` bound in its parameters; its value
equals the current `iterationsize` after construction and is preserved
by every merge whose argument does not bind `LIMIT_SIZE` (a merge that
does bind it overwrites the value until the next iterative run). -/
theorem c5_amended_limit_key (s t : GraphStatement)
    (hs : Reachable s) (ht : ReachableKeepLimit t) :
    (∃ v, dictLookup s.parameters "LIMIT_SIZE" = some v) ∧
    dictLookup t.parameters "LIMIT_SIZE" = some (Val.vint t.iterationsize) := by
  constructor
  · induction hs with
    | init q p i n =>
      exact ⟨Val.vint n, by rw [init_lookup]; simp⟩
    | merge s' e _ ih =>
      obtain ⟨v, hv⟩ := ih
      show ∃ w, dictLookup (dictUpdate s'.parameters e) "LIMIT_SIZE" = some w
      rw [dictLookup_dictUpdate]
      cases he : updLookup e "LIMIT_SIZE" with
      | some w => exact ⟨w, rfl⟩
      | none => exact ⟨v, hv⟩
  · induction ht with
    | init q p i n =>
      show dictLookup (GraphStatement.init q p i n).parameters "LIMIT_SIZE" =
        some (Val.vint n)
      rw [init_lookup]
      simp
    | merge s' e he _ ih =>
      show dictLookup (dictUpdate s'.parameters e) "LIMIT_SIZE" =
        some (Val.vint s'.iterationsize)
      rw [dictLookup_dictUpdate, he]
      exact ih

/-- C5 witness: the amended theorem applied to two concrete reachable
statements. -/
theorem c5_amended_limit_key_witness :
    (∃ v, dictLookup ((GraphStatement.init "a" none false 1).merge_parameters
      [("LIMIT_SIZE", Val.vint 9)]).parameters "LIMIT_SIZE" = some v) ∧
    dictLookup ((GraphStatement.init "a" none false 1).merge_parameters
        [("x", Val.vint 2)]).parameters "LIMIT_SIZE" =
      some (Val.vint ((GraphStatement.init "a" none false 1).merge_parameters
        [("x", Val.vint 2)]).iterationsize) :=
  c5_amended_limit_key _ _
    (Reachable.merge _ _ (Reachable.init "a" none false 1))
    (ReachableKeepLimit.merge _ _ (by decide)
      (ReachableKeepLimit.init "a" none false 1))

/-- C8 counterexample: merging `{LIMIT_SIZE: 7}` into a statement with
batch size 0 yields a statement the `as_dict`/`create_from_json` round
trip does not reproduce — hydration re-injects `LIMIT_SIZE = 0`. -/
theorem c8_counterexample :
    GraphStatement.create_from_json
        (((GraphStatement.init "q" none false 0).merge_parameters
          [("LIMIT_SIZE", Val.vint 7)]).as_dict) ≠
      (GraphStatement.init "q" none false 0).merge_parameters
        [("LIMIT_SIZE", Val.vint 7)] := by
  decide

/-- C8 (amended): `create_from_json (as_dict s)` reproduces `s`
field-for-field for every statement whose parameters bind `LIMIT_SIZE`
to its `iterationsize` (true of every freshly constructed or hydrated
statement; a merge that overrides `LIMIT_SIZE` breaks the round trip);
and hydration fills missing document fields with the defaults
`query = ""`, `parameters = {}`, `iterative = false`,
`iterationsize = 0` rather than failing. -/
theorem c8_amended_round_trip (s : GraphStatement)
    (hs : dictLookup s.parameters "LIMIT_SIZE" = some (Val.vint s.iterationsize)) :
    GraphStatement.create_from_json s.as_dict = s ∧
    GraphStatement.create_from_json
        { query := none, parameters := none, iterative := none, iterationsize := none } =
      GraphStatement.init "" none false 0 := by
  constructor
  · have hne : s.parameters.isEmpty = false := by
      cases hp : s.parameters with
      | nil => rw [hp] at hs; simp [dictLookup] at hs
      | cons a rest => rfl
    show GraphStatement.init s.query (some s.parameters) s.iterative s.iterationsize = s
    unfold GraphStatement.init
    simp only [hne, Bool.false_eq_true, if_false]
    rw [dictSet_of_lookup_eq s.parameters "LIMIT_SIZE" _ hs]
  · rfl

/-- C8 witness: the amended round trip applied to a concrete statement. -/
theorem c8_amended_round_trip_witness :
    dictLookup (GraphStatement.init "a" (some [("x", Val.vint 3)]) true 2).parameters
        "LIMIT_SIZE" =
      some (Val.vint (GraphStatement.init "a" (some [("x", Val.vint 3)]) true 2).iterationsize) ∧
    GraphStatement.create_from_json
        (GraphStatement.init "a" (some [("x", Val.vint 3)]) true 2).as_dict =
      GraphStatement.init "a" (some [("x", Val.vint 3)]) true 2 :=
  ⟨by decide, (c8_amended_round_trip _ (by decide)).1⟩

/-- A fake session whose every call instantly returns a result handle
with one row `{x: 1}` (no execution fault). -/
def plainRowsSession : Session :=
  fun _ => { durationMs := 0, result := CallResult.rows [[("x", Val.vint 1)]] }

/-- C4 counterexample: for a non-iterative statement, the single
execution produces a raw result handle (returned by `_run`), but `run`
returns `None` rather than that handle — refuting the claim that `Run`
returns the raw result handle. -/
theorem c4_counterexample :
    (GraphStatement.init "q" none false 0).runSingle plainRowsSession 0 =
      Except.ok [[("x", Val.vint 1)]] ∧
    ((GraphStatement.init "q" none false 0).run plainRowsSession).2 =
      RunResult.ret none 1 ∧
    ((GraphStatement.init "q" none false 0).run plainRowsSession).2 ≠
      RunResult.ret (some [[("x", Val.vint 1)]]) 1 :=
  ⟨rfl, rfl, by decide⟩

/-- C4 (amended): for every non-iterative statement, `run` executes the
query against the session exactly once, leaves the statement unchanged,
propagates any execution fault unchanged, and returns `None`; the raw
result handle is produced and returned by the internal single-shot
helper `_run` but discarded by `run`. -/
theorem c4_amended_single_shot (s : GraphStatement) (sess : Session)
    (h : s.iterative = false) :
    s.run sess = (s,
      match s.runSingle sess 0 with
      | Except.ok _ => RunResult.ret none 1
      | Except.error f => RunResult.exc f 1) ∧
    (∀ rows, (sess 0).result = CallResult.rows rows →
      s.runSingle sess 0 = Except.ok rows) := by
  constructor
  · unfold GraphStatement.run
    simp only [h, Bool.false_eq_true, if_false]
    cases hr : s.runSingle sess 0 with
    | ok a => rfl
    | error f => rfl
  · intro rows hrow
    unfold GraphStatement.runSingle
    rw [hrow]

/-- C4 witness: the amended theorem at a concrete non-iterative
statement and session. -/
theorem c4_amended_single_shot_witness :
    (GraphStatement.init "q" none false 0).iterative = false ∧
    ((GraphStatement.init "q" none false 0).run plainRowsSession =
      (GraphStatement.init "q" none false 0,
        match (GraphStatement.init "q" none false 0).runSingle plainRowsSession 0 with
        | Except.ok _ => RunResult.ret none 1
        | Except.error f => RunResult.exc f 1) ∧
    (∀ rows, (plainRowsSession 0).result = CallResult.rows rows →
      (GraphStatement.init "q" none false 0).runSingle plainRowsSession 0 =
        Except.ok rows)) :=
  ⟨rfl, c4_amended_single_shot _ plainRowsSession rfl⟩

/-- C2: when an iterative attempt's result is malformed (not exactly
one row carrying `TotalCompleted`), `run` surfaces the protocol fault
immediately after that attempt: one store call in total on the first
attempt, and in general an invocation of the retry loop hitting a
malformed attempt makes no further store call after it. -/
theorem c2_protocol_fault_immediate (s : GraphStatement) (sess : Session)
    (hit : s.iterative = true)
    (h0 : attemptTC (sess 0).result = Except.error Fault.protocolFault) :
    (s.run sess).2 = RunResult.exc Fault.protocolFault 1 ∧
    (∀ idx elapsed, attemptTC (sess idx).result = Except.error Fault.protocolFault →
      iterCore sess idx elapsed =
        { outcome := IterOutcome.exc Fault.protocolFault, calls := 1
          elapsed := elapsed + (sess idx).durationMs }) := by
  constructor
  · unfold GraphStatement.run
    simp only [hit, if_true]
    rw [iterCore_of_fault sess 0 0 Fault.protocolFault h0]
  · intro idx elapsed hI
    exact iterCore_of_fault sess idx elapsed Fault.protocolFault hI

/-- C2 witness: a session returning a row with no `TotalCompleted`
field causes the fault on the first attempt with zero retries. -/
theorem c2_protocol_fault_immediate_witness :
    (GraphStatement.init "q" none true 5).iterative = true ∧
    attemptTC (noTCSession 0).result = Except.error Fault.protocolFault ∧
    ((GraphStatement.init "q" none true 5).run noTCSession).2 =
      RunResult.exc Fault.protocolFault 1 :=
  ⟨rfl, rfl, (c2_protocol_fault_immediate _ noTCSession rfl rfl).1⟩

/-- C1: against any session whose first three attempts report the
`TotalCompleted` sequence 5, 3, 0 (fast enough not to exhaust the
1200 s budget), an iterative `run` makes exactly 3 store calls and
returns success with no fault; and in general the retry loop stops with
success exactly when an attempt reports `TotalCompleted == 0`. -/
theorem c1_iterative_converges (s : GraphStatement) (sess : Session)
    (hit : s.iterative = true)
    (h0 : attemptTC (sess 0).result = Except.ok (Val.vint 5))
    (h1 : attemptTC (sess 1).result = Except.ok (Val.vint 3))
    (h2 : attemptTC (sess 2).result = Except.ok (Val.vint 0))
    (hd0 : (sess 0).durationMs < CLEANUP_MAX_RETRY_TIME_MS)
    (hd1 : (sess 0).durationMs + REPEAT_DELAY_MS + (sess 1).durationMs <
      CLEANUP_MAX_RETRY_TIME_MS) :
    (s.run sess).2 = RunResult.ret none 3 ∧
    (∀ (sess' : Session) (idx elapsed : Nat) (v : Val),
      attemptTC (sess' idx).result = Except.ok v →
      ((iterCore sess' idx elapsed).outcome = IterOutcome.done v ↔
        pyNeZero v = false)) := by
  constructor
  · have hv5 : pyNeZero (Val.vint 5) = true := rfl
    have hv3 : pyNeZero (Val.vint 3) = true := rfl
    have hv0 : pyNeZero (Val.vint 0) = false := rfl
    have s1 := iterCore_of_retry sess 0 0 (Val.vint 5) h0 hv5 (by omega)
    have s2 := iterCore_of_retry sess 1 (0 + (sess 0).durationMs + REPEAT_DELAY_MS)
      (Val.vint 3) h1 hv3 (by omega)
    have s3 := iterCore_of_zero sess 2
      (0 + (sess 0).durationMs + REPEAT_DELAY_MS + (sess 1).durationMs + REPEAT_DELAY_MS)
      (Val.vint 0) h2 hv0
    unfold GraphStatement.run
    simp only [hit, if_true]
    rw [s1, s2, s3]
  · intro sess' idx elapsed v hA
    constructor
    · intro hout
      exact iterCore_done_outcome_zero sess' CLEANUP_MAX_RETRY_TIME_MS elapsed idx v
        (by omega) hout
    · intro hz
      rw [iterCore_of_zero sess' idx elapsed v hA hz]

/-- C1 witness: the theorem at a concrete iterative statement and the
fake 5, 3, 0 session. -/
theorem c1_iterative_converges_witness :
    (GraphStatement.init "q" none true 100).iterative = true ∧
    attemptTC (seq532Session 0).result = Except.ok (Val.vint 5) ∧
    attemptTC (seq532Session 1).result = Except.ok (Val.vint 3) ∧
    attemptTC (seq532Session 2).result = Except.ok (Val.vint 0) ∧
    ((GraphStatement.init "q" none true 100).run seq532Session).2 =
      RunResult.ret none 3 :=
  ⟨rfl, rfl, rfl, rfl,
    (c1_iterative_converges _ seq532Session rfl rfl rfl rfl (by decide) (by decide)).1⟩

/-- C3: for an iterative statement against a session whose every
attempt reports a non-zero `TotalCompleted`, `run` terminates with a
`RetryError` carrying the last observed value after some `c ≥ 1` store
calls; the loop's final elapsed time — the attempt durations plus a
fixed 25 ms sleep between consecutive attempts — has reached the
1200 s budget, every earlier attempt finished inside the budget, and
the fault carries the value reported by the last attempt. -/
theorem c3_retry_budget (s : GraphStatement) (sess : Session)
    (hit : s.iterative = true)
    (hnz : ∀ i, ∃ v, attemptTC (sess i).result = Except.ok v ∧ pyNeZero v = true) :
    ∃ (c : Nat) (vlast : Val), 1 ≤ c ∧
      attemptTC (sess (c - 1)).result = Except.ok vlast ∧
      (s.run sess).2 = RunResult.exc (Fault.retryBudgetExceeded vlast) c ∧
      iterCore sess 0 0 =
        { outcome := IterOutcome.exc (Fault.retryBudgetExceeded vlast)
          calls := c
          elapsed := sumDur sess 0 c + REPEAT_DELAY_MS * (c - 1) } ∧
      CLEANUP_MAX_RETRY_TIME_MS ≤ sumDur sess 0 c + REPEAT_DELAY_MS * (c - 1) ∧
      (∀ j, j + 1 < c →
        sumDur sess 0 (j + 1) + REPEAT_DELAY_MS * j < CLEANUP_MAX_RETRY_TIME_MS) := by
  obtain ⟨c, vlast, hc, hA, heq, hbud, hj⟩ :=
    iterCore_all_nonzero sess hnz CLEANUP_MAX_RETRY_TIME_MS 0 0 (by omega)
  simp only [Nat.zero_add] at hA heq hbud hj
  refine ⟨c, vlast, hc, hA, ?_, heq, hbud, hj⟩
  unfold GraphStatement.run
  simp only [hit, if_true]
  rw [heq]

/-- C3 witness: the theorem at a concrete iterative statement and a
session that always reports `TotalCompleted = 1`. -/
theorem c3_retry_budget_witness :
    (∀ i, ∃ v, attemptTC (onesSession i).result = Except.ok v ∧ pyNeZero v = true) ∧
    ∃ (c : Nat) (vlast : Val), 1 ≤ c ∧
      attemptTC (onesSession (c - 1)).result = Except.ok vlast ∧
      ((GraphStatement.init "q" none true 50).run onesSession).2 =
        RunResult.exc (Fault.retryBudgetExceeded vlast) c ∧
      iterCore onesSession 0 0 =
        { outcome := IterOutcome.exc (Fault.retryBudgetExceeded vlast)
          calls := c
          elapsed := sumDur onesSession 0 c + REPEAT_DELAY_MS * (c - 1) } ∧
      CLEANUP_MAX_RETRY_TIME_MS ≤ sumDur onesSession 0 c + REPEAT_DELAY_MS * (c - 1) ∧
      (∀ j, j + 1 < c →
        sumDur onesSession 0 (j + 1) + REPEAT_DELAY_MS * j <
          CLEANUP_MAX_RETRY_TIME_MS) :=
  ⟨fun _ => ⟨Val.vint 1, rfl, rfl⟩,
    c3_retry_budget _ onesSession rfl (fun _ => ⟨Val.vint 1, rfl, rfl⟩)⟩
